import Mathlib

/-!
Shallow embedding of `src/app.py` (Streamlit real-time salary dashboard).

Python floats are idealized as rationals (`ℚ`); every arithmetic step of the
source pipeline is mirrored one for one.  Streamlit session state becomes an
explicit record, the render/button handlers become state-transition functions,
and the Google-Sheets calls become an explicit effect environment in the
`Except` monad.
-/

namespace SalaireApp

/-- Employment status selectbox: `["Cadre", "Non-cadre", "Fonction publique"]`
(app.py line 167). -/
inductive Statut
  | Cadre
  | NonCadre
  | FonctionPublique
  deriving DecidableEq, Repr

/-- Household situation selectbox: `["Célibataire", "Couple"]` (app.py line 200). -/
inductive Situation
  | Celibataire
  | Couple
  deriving DecidableEq, Repr

/-- `calculate_net_avant_impot` (app.py lines 86-94):
`taux_charges = 0.255` for Cadre else `0.23`; returns `brut * (1 - taux)`. -/
def calculate_net_avant_impot (brut_annuel : ℚ) (statut : Statut) : ℚ :=
  let taux_charges : ℚ := if statut = Statut.Cadre then 255/1000 else 23/100
  brut_annuel * (1 - taux_charges)

/-- `calculate_net_imposable` (app.py lines 97-99): `net_avant_impot * 1.07`. -/
def calculate_net_imposable (net_avant_impot : ℚ) : ℚ :=
  net_avant_impot * (107/100)

/-- The 2024 bracket table `tranches` (app.py lines 112-118); `none` stands for
the `float('inf')` upper bound of the last bracket. -/
def tranches : List (ℚ × Option ℚ × ℚ) :=
  [(0, some 11294, 0),
   (11294, some 28797, 11/100),
   (28797, some 82341, 30/100),
   (82341, some 177106, 41/100),
   (177106, none, 45/100)]

/-- One iteration of the bracket loop (app.py lines 122-125): if
`revenu_par_part > min_tranche` add `(min(revenu_par_part, max_tranche) - min_tranche) * taux`
(with `min(r, inf) = r` for the unbounded last bracket). -/
def sliceOf (revenu_par_part : ℚ) : ℚ × Option ℚ × ℚ → ℚ
  | (min_tranche, some max_tranche, taux) =>
      if min_tranche < revenu_par_part then
        (min revenu_par_part max_tranche - min_tranche) * taux
      else 0
  | (min_tranche, none, taux) =>
      if min_tranche < revenu_par_part then
        (revenu_par_part - min_tranche) * taux
      else 0

/-- `impot_par_part`: the accumulated result of the bracket loop
(app.py lines 121-125). -/
def impot_par_part (revenu_par_part : ℚ) : ℚ :=
  (tranches.map (sliceOf revenu_par_part)).sum

/-- The décote (app.py lines 131-134): `833 - 0.4525 * impot_brut` for
Célibataire, `1378 - 0.4525 * impot_brut` otherwise. -/
def decoteOf (situation_familiale : Situation) (impot_brut : ℚ) : ℚ :=
  if situation_familiale = Situation.Celibataire then
    833 - (4525/10000) * impot_brut
  else
    1378 - (4525/10000) * impot_brut

/-- Applying the décote and the floor (app.py lines 137-143): subtract the
décote only when it is positive, then `max(0, ·)`. -/
def impotFinalOf (impot_brut decote : ℚ) : ℚ :=
  max 0 (if 0 < decote then impot_brut - decote else impot_brut)

/-- The reported décote (app.py line 145): `decote if decote > 0 else 0`. -/
def decoteReported (decote : ℚ) : ℚ :=
  if 0 < decote then decote else 0

/-- `calculate_impot` (app.py lines 102-145); returns
`(impot_final, impot_brut, reported décote)`. -/
def calculate_impot (net_imposable parts_fiscales autres_revenus : ℚ)
    (situation_familiale : Situation) : ℚ × ℚ × ℚ :=
  let revenu_total_imposable := net_imposable + autres_revenus
  let revenu_par_part := revenu_total_imposable / parts_fiscales
  let impot_brut := impot_par_part revenu_par_part * parts_fiscales
  let decote := decoteOf situation_familiale impot_brut
  (impotFinalOf impot_brut decote, impot_brut, decoteReported decote)

/-- The sidebar inputs feeding the calculation pipeline (app.py lines 151-301).
`mode_manuel = true` is the "Taux de prélèvement manuel" radio choice;
`taux_prelevement` is the slider value already divided by 100;
`pourcentage_remboursement` is the raw 0..100 slider value. -/
structure Inputs where
  salaire_brut_annuel : ℚ
  statut : Statut
  mode_manuel : Bool
  taux_prelevement : ℚ
  situation_familiale : Situation
  parts_fiscales : ℚ
  autres_revenus : ℚ
  heures_semaine : ℚ
  semaines_travaillees : ℚ
  mutuelle : ℚ
  retraite_supp : ℚ
  abonnement_transport : ℚ
  pourcentage_remboursement : ℚ
  autres_deductions : ℚ
  deriving DecidableEq, Repr

/-- The values computed by the top-level pipeline (app.py lines 303-343). -/
structure Outputs where
  net_avant_impot : ℚ
  net_imposable : ℚ
  impot_annuel : ℚ
  impot_brut : ℚ
  decote : ℚ
  net_apres_impot_annuel : ℚ
  deductions_annuelles : ℚ
  net_cash_annuel : ℚ
  secondes_travaillees_annuel : ℚ
  revenu_par_seconde : ℚ
  deriving DecidableEq, Repr

/-- The calculation pipeline (app.py lines 303-343), including
`part_salariale_transport` from line 284. -/
def pipeline (i : Inputs) : Outputs :=
  let net_avant_impot := calculate_net_avant_impot i.salaire_brut_annuel i.statut
  let net_imposable := calculate_net_imposable net_avant_impot
  let impots : ℚ × ℚ × ℚ :=
    if i.mode_manuel then
      (net_avant_impot * i.taux_prelevement, net_avant_impot * i.taux_prelevement, (0 : ℚ))
    else
      calculate_impot net_imposable i.parts_fiscales i.autres_revenus i.situation_familiale
  let impot_annuel := impots.1
  let impot_brut := impots.2.1
  let decote := impots.2.2
  let net_apres_impot_annuel := net_avant_impot - impot_annuel
  let part_salariale_transport :=
    i.abonnement_transport * (1 - i.pourcentage_remboursement / 100)
  let deductions_mensuelles :=
    i.mutuelle + i.retraite_supp + part_salariale_transport + i.autres_deductions
  let deductions_annuelles := deductions_mensuelles * 12
  let net_cash_annuel := net_apres_impot_annuel - deductions_annuelles
  let heures_travaillees_annuel := i.heures_semaine * i.semaines_travaillees
  let secondes_travaillees_annuel := heures_travaillees_annuel * 3600
  let revenu_par_seconde := net_cash_annuel / secondes_travaillees_annuel
  { net_avant_impot := net_avant_impot
    net_imposable := net_imposable
    impot_annuel := impot_annuel
    impot_brut := impot_brut
    decote := decote
    net_apres_impot_annuel := net_apres_impot_annuel
    deductions_annuelles := deductions_annuelles
    net_cash_annuel := net_cash_annuel
    secondes_travaillees_annuel := secondes_travaillees_annuel
    revenu_par_seconde := revenu_par_seconde }

/-- The end-to-end scenario of spec item 11: gross 99999, Cadre (Executive),
automatic bracket mode, Célibataire, 1 fiscal share, no other income,
35 h/week, 47 weeks/year, all deductions 0. -/
def c1Inputs : Inputs :=
  { salaire_brut_annuel := 99999
    statut := Statut.Cadre
    mode_manuel := false
    taux_prelevement := 0
    situation_familiale := Situation.Celibataire
    parts_fiscales := 1
    autres_revenus := 0
    heures_semaine := 35
    semaines_travaillees := 47
    mutuelle := 0
    retraite_supp := 0
    abonnement_transport := 0
    pourcentage_remboursement := 50
    autres_deductions := 0 }

/-- A concrete flat-withholding-mode input used to instantiate theorems about
the manual-rate branch. -/
def flatInputs : Inputs :=
  { c1Inputs with mode_manuel := true, taux_prelevement := 1/10, mutuelle := 10 }

/-- Valid sidebar inputs with gross salary 0 (the number input's `min_value=0`)
and a 10 €/month mutuelle, so that deductions exceed net income. -/
def c6Inputs : Inputs :=
  { flatInputs with salaire_brut_annuel := 0 }

/-- Truncation of an income to the bracket `[lo, hi]` from below; used to give
the bracket loop a closed form amenable to monotonicity/continuity proofs. -/
def clamp (lo hi r : ℚ) : ℚ :=
  max (min r hi) lo

/-- The `st.session_state` fields of app.py (lines 72-83): `running`,
`total_earned_today`, `last_update`, `last_logged_salary`, `log_sent`,
`start_time`.  Wall-clock instants and time-of-day values are rationals
(seconds). -/
structure SessionRunState where
  running : Bool
  total_earned_today : ℚ
  last_update : ℚ
  last_logged_salary : Option ℚ
  log_sent : Bool
  start_time : Option ℚ
  deriving DecidableEq, Repr

/-- The initial session state (app.py lines 72-83) at wall-clock `t0`. -/
def initState (t0 : ℚ) : SessionRunState :=
  { running := false
    total_earned_today := 0
    last_update := t0
    last_logged_salary := none
    log_sent := false
    start_time := none }

/-- The operations that mutate the counter state:
`tick` is the accrual step (lines 414-418, runs only when `running` and in
work hours), `reset` the "Reset journalier" button (lines 383-386), `sync`
the "Selon l'heure actuelle" button (lines 389-409, with `current_seconds`,
`debut_seconds`, `fin_seconds` the times-of-day in seconds), and `toggle` the
start/pause button (lines 378-380). -/
inductive Op
  | tick (now rate : ℚ) (is_work_hours : Bool)
  | reset (now : ℚ)
  | sync (now current_seconds debut_seconds fin_seconds rate : ℚ)
  | toggle (now : ℚ)
  deriving DecidableEq, Repr

/-- One step of the counter state machine, mirroring the handlers of app.py. -/
def applyOp (s : SessionRunState) : Op → SessionRunState
  | Op.tick now rate is_work_hours =>
      if s.running = true ∧ is_work_hours = true then
        { s with
            total_earned_today := s.total_earned_today + (now - s.last_update) * rate
            last_update := now }
      else s
  | Op.reset now =>
      { s with total_earned_today := 0, start_time := none, last_update := now }
  | Op.sync now current_seconds debut_seconds fin_seconds rate =>
      if debut_seconds ≤ current_seconds ∧ current_seconds ≤ fin_seconds then
        { s with
            total_earned_today := (current_seconds - debut_seconds) * rate
            start_time := some now
            last_update := now }
      else s
  | Op.toggle now =>
      { s with running := !s.running, last_update := now }

/-- Running a sequence of counter operations. -/
def runOps (s : SessionRunState) (ops : List Op) : SessionRunState :=
  ops.foldl applyOp s

/-- Side conditions making an operation physically meaningful in a given
state: clock values never run backwards and the per-second rate fed to an
accrual or sync step is non-negative. -/
def opOk (s : SessionRunState) : Op → Bool
  | Op.tick now rate _ => decide (s.last_update ≤ now) && decide (0 ≤ rate)
  | Op.sync _ _ _ _ rate => decide (0 ≤ rate)
  | _ => true

/-- A chronologically valid run: every operation satisfies `opOk` in the state
it is applied to. -/
def validRun : SessionRunState → List Op → Bool
  | _, [] => true
  | s, op :: rest => opOk s op && validRun (applyOp s op) rest

/-- One render pass of the sidebar logging logic (app.py lines 163-185):
first the change-detection block (line 163: update `last_logged_salary` and
clear `log_sent` when the salary input differs and is positive), then the
send block (line 174: attempt an append when `log_sent` is false and the
salary is positive; on success set `log_sent`).  Returns the new state and
the list of append attempts made, each carrying the (salary, statut) row
content of `row_data` (lines 57-62). -/
def renderStep (s : SessionRunState) (salaire : ℚ) (statut : Statut)
    (success : Bool) : SessionRunState × List (ℚ × Statut) :=
  let s1 :=
    if some salaire ≠ s.last_logged_salary ∧ 0 < salaire then
      { s with last_logged_salary := some salaire, log_sent := false }
    else s
  if s1.log_sent = false ∧ 0 < salaire then
    (if success then { s1 with log_sent := true } else s1, [(salaire, statut)])
  else (s1, [])

/-- A sequence of render passes, accumulating the append attempts. -/
def runRenders : SessionRunState → List (ℚ × Statut × Bool) →
    SessionRunState × List (ℚ × Statut)
  | s, [] => (s, [])
  | s, (salaire, statut, success) :: rest =>
      let r1 := renderStep s salaire statut success
      let r2 := runRenders r1.1 rest
      (r2.1, r1.2 ++ r2.2)

/-- A session state right after a successful append of salary 99999. -/
def loggedState : SessionRunState :=
  { running := false
    total_earned_today := 0
    last_update := 0
    last_logged_salary := some 99999
    log_sent := true
    start_time := none }

/-- Outcome of `spreadsheet.worksheet("Logs")` (app.py lines 49-54): found,
the specifically-caught `gspread.WorksheetNotFound`, or any other exception. -/
inductive LookupResult
  | found
  | notFound
  | failure (e : String)
  deriving DecidableEq, Repr

/-- The effect environment of the remote-logging path: the outcome each
external call would have if reached.  `connection` stands for credential
construction plus `gspread.authorize` (lines 25-30), the rest for the calls
inside `log_to_google_sheet` (lines 46-64). -/
structure LogEnv where
  connection : Except String Unit
  openByKey : Except String Unit
  lookup : LookupResult
  addWorksheet : Except String Unit
  appendHeader : Except String Unit
  appendRow : Except String Unit

/-- `get_google_sheets_connection` (app.py lines 16-34): its whole body is a
`try`, so a raised exception becomes `None`. -/
def get_google_sheets_connection (env : LogEnv) : Option Unit :=
  match env.connection with
  | Except.ok _ => some ()
  | Except.error _ => none

/-- The body of the outer `try` of `log_to_google_sheet` (app.py lines 38-65),
with the raise/propagate control flow made explicit in `Except`: a `None`
connection returns `False` without raising; the inner `try` catches only
`WorksheetNotFound` and then creates the worksheet and appends the header
row; any other raise propagates to the end of the body. -/
def logBody (env : LogEnv) : Except String Bool :=
  match get_google_sheets_connection env with
  | none => Except.ok false
  | some _ =>
    match env.openByKey with
    | Except.error e => Except.error e
    | Except.ok _ =>
      match (match env.lookup with
             | LookupResult.found => Except.ok ()
             | LookupResult.notFound =>
               (match env.addWorksheet with
                | Except.error e => Except.error e
                | Except.ok _ => env.appendHeader)
             | LookupResult.failure e => Except.error e) with
      | Except.error e => Except.error e
      | Except.ok _ =>
        match env.appendRow with
        | Except.error e => Except.error e
        | Except.ok _ => Except.ok true

/-- `log_to_google_sheet` (app.py lines 36-69): the outer `except Exception`
converts any propagated raise into the failure result `False`. -/
def log_to_google_sheet (env : LogEnv) : Bool :=
  match logBody env with
  | Except.ok b => b
  | Except.error _ => false

/-- An effect environment whose connection step fails. -/
def envConnFail : LogEnv :=
  { connection := Except.error "auth"
    openByKey := Except.ok ()
    lookup := LookupResult.found
    addWorksheet := Except.ok ()
    appendHeader := Except.ok ()
    appendRow := Except.ok () }

end SalaireApp

namespace SalaireApp

/-- C1 counterexample: in the later-generation pipeline (app.py, Cadre rate
0.255) the scenario gross=99999/Executive/auto/Single/1 share/35 h/47 weeks/no
deductions yields net_before_tax = 74,499.255, not the claimed 74,999.25 —
off by 499.995, far beyond any display rounding (the claimed figures match the
earlier generation's 0.25 rate). -/
theorem C1_counterexample :
    (pipeline c1Inputs).net_avant_impot ≠ 7499925/100 ∧
    (pipeline c1Inputs).net_avant_impot = 14899851/200 ∧
    (7499925/100 : ℚ) - 14899851/200 = 99999/200 := by
  norm_num [pipeline, c1Inputs, calculate_net_avant_impot]

/-- C1 amended: with the later generation's 0.255 Executive charge rate the
same scenario computes net_before_tax = 74,499.255, net_taxable = 79,714.20285,
gross bracket tax = final tax = 17,200.490855 (the décote is negative, reported
0), net_after_tax = net_cash = 57,298.764145, annual_seconds = 5,922,000 and
rate_per_second = 57,298.764145 / 5,922,000 ≈ 0.00968. -/
theorem C1_amended_pipeline :
    (pipeline c1Inputs).net_avant_impot = 14899851/200 ∧
    (pipeline c1Inputs).net_imposable = 1594284057/20000 ∧
    (pipeline c1Inputs).impot_brut = 3440098171/200000 ∧
    decoteOf Situation.Celibataire ((pipeline c1Inputs).impot_brut) < 0 ∧
    (pipeline c1Inputs).decote = 0 ∧
    (pipeline c1Inputs).impot_annuel = 3440098171/200000 ∧
    (pipeline c1Inputs).net_apres_impot_annuel = 11459752829/200000 ∧
    (pipeline c1Inputs).net_cash_annuel = 11459752829/200000 ∧
    (pipeline c1Inputs).secondes_travaillees_annuel = 5922000 ∧
    (pipeline c1Inputs).revenu_par_seconde = 1637107547/169200000000 ∧
    |(pipeline c1Inputs).revenu_par_seconde - 968/100000| < 1/200000 := by
  norm_num [pipeline, c1Inputs, calculate_net_avant_impot, calculate_net_imposable,
    calculate_impot, impot_par_part, tranches, sliceOf, decoteOf, impotFinalOf,
    decoteReported, abs_lt]

/-- C2: for every gross_annual ≥ 0, net_before_tax = gross × (1 − rate) with
rate 0.255 for Cadre and 0.23 for Non-cadre and Fonction publique; the two
non-executive statuses give gross × 0.77 and agree with each other. -/
theorem C2_net_avant_impot (g : ℚ) (hg : 0 ≤ g) :
    calculate_net_avant_impot g Statut.Cadre = g * (1 - 255/1000) ∧
    calculate_net_avant_impot g Statut.NonCadre = g * (1 - 23/100) ∧
    calculate_net_avant_impot g Statut.FonctionPublique = g * (1 - 23/100) ∧
    calculate_net_avant_impot g Statut.NonCadre = g * (77/100) ∧
    calculate_net_avant_impot g Statut.FonctionPublique = g * (77/100) ∧
    calculate_net_avant_impot g Statut.FonctionPublique =
      calculate_net_avant_impot g Statut.NonCadre := by
  have h1 : calculate_net_avant_impot g Statut.Cadre = g * (1 - 255/1000) := by
    simp [calculate_net_avant_impot]
  have h2 : calculate_net_avant_impot g Statut.NonCadre = g * (1 - 23/100) := by
    simp [calculate_net_avant_impot]
  have h3 : calculate_net_avant_impot g Statut.FonctionPublique = g * (1 - 23/100) := by
    simp [calculate_net_avant_impot]
  exact ⟨h1, h2, h3, h2.trans (by ring), h3.trans (by ring), h3.trans h2.symm⟩

/-- Witness for C2 at gross = 100. -/
theorem C2_witness :
    (0 : ℚ) ≤ 100 ∧ calculate_net_avant_impot 100 Statut.NonCadre = 100 * (77/100) :=
  ⟨by norm_num, (C2_net_avant_impot 100 (by norm_num)).2.2.2.1⟩

/-- C3: in flat-withholding mode the annual tax is net_before_tax × flat_rate
for every flat_rate in [0, 0.45], the reported décote is 0, and the basis is
`calculate_net_avant_impot` (the ×1.07 add-back is bypassed), whereas in
automatic mode the tax is `calculate_impot` applied to
`calculate_net_imposable` of net_before_tax. -/
theorem C3_flat_mode (i : Inputs) (hm : i.mode_manuel = true)
    (h0 : 0 ≤ i.taux_prelevement) (h45 : i.taux_prelevement ≤ 45/100) :
    (pipeline i).impot_annuel = (pipeline i).net_avant_impot * i.taux_prelevement ∧
    (pipeline i).decote = 0 ∧
    (pipeline i).impot_annuel =
      calculate_net_avant_impot i.salaire_brut_annuel i.statut * i.taux_prelevement ∧
    (∀ j : Inputs, j.mode_manuel = false →
      (pipeline j).impot_annuel =
        (calculate_impot
          (calculate_net_imposable
            (calculate_net_avant_impot j.salaire_brut_annuel j.statut))
          j.parts_fiscales j.autres_revenus j.situation_familiale).1) := by
  refine ⟨?_, ?_, ?_, ?_⟩
  · simp [pipeline, hm]
  · simp [pipeline, hm]
  · simp [pipeline, hm]
  · intro j hj
    simp [pipeline, hj]

/-- Witness for C3 at the concrete flat-mode input (rate 0.10). -/
theorem C3_witness :
    (flatInputs.mode_manuel = true ∧ (0:ℚ) ≤ flatInputs.taux_prelevement ∧
      flatInputs.taux_prelevement ≤ 45/100) ∧
    (pipeline flatInputs).impot_annuel =
      (pipeline flatInputs).net_avant_impot * flatInputs.taux_prelevement :=
  ⟨⟨rfl, by norm_num [flatInputs, c1Inputs], by norm_num [flatInputs, c1Inputs]⟩,
   (C3_flat_mode flatInputs rfl (by norm_num [flatInputs, c1Inputs])
     (by norm_num [flatInputs, c1Inputs])).1⟩

/-- C4: for every non-negative gross bracket tax, the décote is
833 − 0.4525 × gross for Célibataire and 1378 − 0.4525 × gross for Couple;
when positive it is subtracted (then floored at 0), otherwise the tax is
unchanged and the reported décote is 0; the final tax is never negative; at
gross 1000 (Single) the final tax is 619.5, at gross 2000 it is 2000 with
reported décote 0. -/
theorem C4_decote (brut : ℚ) (hb : 0 ≤ brut) (sit : Situation) :
    decoteOf Situation.Celibataire brut = 833 - (4525/10000) * brut ∧
    decoteOf Situation.Couple brut = 1378 - (4525/10000) * brut ∧
    (0 < decoteOf sit brut →
      impotFinalOf brut (decoteOf sit brut) = max 0 (brut - decoteOf sit brut)) ∧
    (¬ 0 < decoteOf sit brut →
      impotFinalOf brut (decoteOf sit brut) = brut ∧
        decoteReported (decoteOf sit brut) = 0) ∧
    0 ≤ impotFinalOf brut (decoteOf sit brut) ∧
    impotFinalOf 1000 (decoteOf Situation.Celibataire 1000) = 6195/10 ∧
    impotFinalOf 2000 (decoteOf Situation.Celibataire 2000) = 2000 ∧
    decoteReported (decoteOf Situation.Celibataire 2000) = 0 := by
  refine ⟨by simp [decoteOf], by simp [decoteOf], ?_, ?_, le_max_left _ _, ?_, ?_, ?_⟩
  · intro h
    simp [impotFinalOf, h]
  · intro h
    constructor
    · simp only [impotFinalOf, if_neg h]
      exact max_eq_right hb
    · simp [decoteReported, h]
  · norm_num [impotFinalOf, decoteOf]
  · norm_num [impotFinalOf, decoteOf]
  · norm_num [decoteReported, decoteOf]

/-- Witness for C4 at gross bracket tax 1000, Célibataire. -/
theorem C4_witness :
    (0 : ℚ) ≤ 1000 ∧ impotFinalOf 1000 (decoteOf Situation.Celibataire 1000) = 6195/10 :=
  ⟨by norm_num, (C4_decote 1000 (by norm_num) Situation.Celibataire).2.2.2.2.2.1⟩

/-- A bounded bracket's loop contribution equals its rate times the clamped
income slice. -/
theorem sliceOf_eq_clamp (r lo hi rate : ℚ) (h : lo ≤ hi) :
    sliceOf r (lo, some hi, rate) = rate * (clamp lo hi r - lo) := by
  simp only [sliceOf, clamp]
  split_ifs with hlt
  · rw [max_eq_left (le_min (le_of_lt hlt) h)]
    ring
  · push_neg at hlt
    rw [min_eq_left (hlt.trans h), max_eq_right hlt]
    ring

/-- The unbounded top bracket's contribution in closed form. -/
theorem sliceOf_top_eq (r lo rate : ℚ) :
    sliceOf r (lo, none, rate) = rate * (max r lo - lo) := by
  simp only [sliceOf]
  split_ifs with hlt
  · rw [max_eq_left (le_of_lt hlt)]
    ring
  · push_neg at hlt
    rw [max_eq_right hlt]
    ring

/-- Closed form of the 2024 bracket loop as a sum of clamped slices. -/
theorem impot_par_part_closed (r : ℚ) :
    impot_par_part r =
      (11/100) * (clamp 11294 28797 r - 11294) +
      (30/100) * (clamp 28797 82341 r - 28797) +
      (41/100) * (clamp 82341 177106 r - 82341) +
      (45/100) * (max r 177106 - 177106) := by
  simp only [impot_par_part, tranches, List.map_cons, List.map_nil, List.sum_cons,
    List.sum_nil, sliceOf_eq_clamp r 0 11294 0 (by norm_num),
    sliceOf_eq_clamp r 11294 28797 (11/100) (by norm_num),
    sliceOf_eq_clamp r 28797 82341 (30/100) (by norm_num),
    sliceOf_eq_clamp r 82341 177106 (41/100) (by norm_num),
    sliceOf_top_eq r 177106 (45/100)]
  ring

/-- `clamp` is monotone in the income argument. -/
theorem clamp_mono (lo hi : ℚ) {r s : ℚ} (h : r ≤ s) : clamp lo hi r ≤ clamp lo hi s :=
  max_le_max (min_le_min h le_rfl) le_rfl

/-- `clamp` is 1-Lipschitz in the income argument. -/
theorem abs_clamp_sub_clamp (lo hi r s : ℚ) :
    |clamp lo hi s - clamp lo hi r| ≤ |s - r| := by
  refine (abs_max_sub_max_le_abs _ _ _).trans ?_
  have h := abs_min_sub_min_le_max s hi r hi
  simpa using h

/-- The per-share bracket tax is non-decreasing. -/
theorem impot_par_part_mono {r s : ℚ} (h : r ≤ s) :
    impot_par_part r ≤ impot_par_part s := by
  rw [impot_par_part_closed, impot_par_part_closed]
  have c1 := clamp_mono 11294 28797 h
  have c2 := clamp_mono 28797 82341 h
  have c3 := clamp_mono 82341 177106 h
  have c4 : max r 177106 ≤ max s 177106 := max_le_max h le_rfl
  linarith

/-- The per-share bracket tax is Lipschitz (with the sum of the marginal
rates as a crude constant), hence continuous. -/
theorem impot_par_part_lipschitz (r s : ℚ) :
    |impot_par_part s - impot_par_part r| ≤ (127/100) * |s - r| := by
  rw [impot_par_part_closed, impot_par_part_closed]
  have c1 := abs_clamp_sub_clamp 11294 28797 r s
  have c2 := abs_clamp_sub_clamp 28797 82341 r s
  have c3 := abs_clamp_sub_clamp 82341 177106 r s
  have c4 : |max s 177106 - max r 177106| ≤ |s - r| := abs_max_sub_max_le_abs s r 177106
  have e : ((11/100) * (clamp 11294 28797 s - 11294) +
      (30/100) * (clamp 28797 82341 s - 28797) +
      (41/100) * (clamp 82341 177106 s - 82341) +
      (45/100) * (max s 177106 - 177106)) -
      ((11/100) * (clamp 11294 28797 r - 11294) +
      (30/100) * (clamp 28797 82341 r - 28797) +
      (41/100) * (clamp 82341 177106 r - 82341) +
      (45/100) * (max r 177106 - 177106)) =
      (11/100) * (clamp 11294 28797 s - clamp 11294 28797 r) +
      (30/100) * (clamp 28797 82341 s - clamp 28797 82341 r) +
      (41/100) * (clamp 82341 177106 s - clamp 82341 177106 r) +
      (45/100) * (max s 177106 - max r 177106) := by ring
  rw [e]
  have h1 := abs_add ((11/100) * (clamp 11294 28797 s - clamp 11294 28797 r) +
      (30/100) * (clamp 28797 82341 s - clamp 28797 82341 r) +
      (41/100) * (clamp 82341 177106 s - clamp 82341 177106 r))
      ((45/100) * (max s 177106 - max r 177106))
  have h2 := abs_add ((11/100) * (clamp 11294 28797 s - clamp 11294 28797 r) +
      (30/100) * (clamp 28797 82341 s - clamp 28797 82341 r))
      ((41/100) * (clamp 82341 177106 s - clamp 82341 177106 r))
  have h3 := abs_add ((11/100) * (clamp 11294 28797 s - clamp 11294 28797 r))
      ((30/100) * (clamp 28797 82341 s - clamp 28797 82341 r))
  have m1 : |(11/100 : ℚ) * (clamp 11294 28797 s - clamp 11294 28797 r)| =
      (11/100) * |clamp 11294 28797 s - clamp 11294 28797 r| := by
    rw [abs_mul]; norm_num
  have m2 : |(30/100 : ℚ) * (clamp 28797 82341 s - clamp 28797 82341 r)| =
      (30/100) * |clamp 28797 82341 s - clamp 28797 82341 r| := by
    rw [abs_mul]; norm_num
  have m3 : |(41/100 : ℚ) * (clamp 82341 177106 s - clamp 82341 177106 r)| =
      (41/100) * |clamp 82341 177106 s - clamp 82341 177106 r| := by
    rw [abs_mul]; norm_num
  have m4 : |(45/100 : ℚ) * (max s 177106 - max r 177106)| =
      (45/100) * |max s 177106 - max r 177106| := by
    rw [abs_mul]; norm_num
  linarith [m1, m2, m3, m4, abs_nonneg (s - r)]

/-- C5: the 2024 per-share bracket tax is non-decreasing, continuous (with
explicit modulus δ = ε/2 via the Lipschitz bound), agrees with the piecewise
sum of min(income, upper) − lower times the marginal rate over brackets whose
lower bound the income exceeds, equals (28797 − 11294) × 0.11 = 1925.33 at
per-share income 28797, and the household gross tax is the per-share tax of
(net taxable + other income)/shares multiplied by the fiscal shares. -/
theorem C5_bareme (r s : ℚ) (hrs : r ≤ s) (ε : ℚ) (heps : 0 < ε) :
    impot_par_part r ≤ impot_par_part s ∧
    (|s - r| < ε/2 → |impot_par_part s - impot_par_part r| < ε) ∧
    (impot_par_part r =
      (if 0 < r then (min r 11294 - 0) * 0 else 0) +
      ((if 11294 < r then (min r 28797 - 11294) * (11/100) else 0) +
      ((if 28797 < r then (min r 82341 - 28797) * (30/100) else 0) +
      ((if 82341 < r then (min r 177106 - 82341) * (41/100) else 0) +
      (if 177106 < r then (r - 177106) * (45/100) else 0))))) ∧
    impot_par_part 28797 = 192533/100 ∧
    (∀ ni parts autres sit, (calculate_impot ni parts autres sit).2.1 =
      impot_par_part ((ni + autres) / parts) * parts) := by
  refine ⟨impot_par_part_mono hrs, ?_, ?_,
    by norm_num [impot_par_part, tranches, sliceOf],
    fun ni parts autres sit => rfl⟩
  · intro hd
    have hl := impot_par_part_lipschitz r s
    have hm : (127/100 : ℚ) * |s - r| < (127/100) * (ε/2) := by
      apply mul_lt_mul_of_pos_left hd
      norm_num
    linarith
  · simp only [impot_par_part, tranches, List.map_cons, List.map_nil, List.sum_cons,
      List.sum_nil, sliceOf]
    ring_nf

/-- Witness for C5 at the bracket boundary 28797 (with s = 28798, ε = 2). -/
theorem C5_witness :
    ((28797 : ℚ) ≤ 28798 ∧ (0 : ℚ) < 2) ∧
    (impot_par_part 28797 ≤ impot_par_part 28798 ∧
      impot_par_part 28797 = 192533/100) :=
  ⟨⟨by norm_num, by norm_num⟩,
   (C5_bareme 28797 28798 (by norm_num) 2 (by norm_num)).1,
   (C5_bareme 28797 28798 (by norm_num) 2 (by norm_num)).2.2.2.1⟩

end SalaireApp

namespace SalaireApp

/-- C6 counterexample: with the valid sidebar inputs gross = 0 (the input's
floor) and mutuelle = 10 €/month, the per-second rate is negative, and a
single accrual tick while Running and in work hours drives the "total earned
today" accumulator below 0 from its default 0.0. -/
theorem C6_counterexample :
    (pipeline c6Inputs).revenu_par_seconde < 0 ∧
    (runOps (initState 0)
      [Op.toggle 0, Op.tick 1 ((pipeline c6Inputs).revenu_par_seconde) true]
      ).total_earned_today < 0 := by
  norm_num [pipeline, c6Inputs, flatInputs, c1Inputs, calculate_net_avant_impot,
    runOps, applyOp, initState]

/-- A single counter operation preserves non-negativity of the accumulator
when its side conditions (`opOk`) hold. -/
theorem applyOp_total_nonneg {s : SessionRunState} {op : Op}
    (h0 : 0 ≤ s.total_earned_today) (hok : opOk s op = true) :
    0 ≤ (applyOp s op).total_earned_today := by
  cases op with
  | tick now rate wh =>
    simp only [opOk, Bool.and_eq_true, decide_eq_true_eq] at hok
    simp only [applyOp]
    split_ifs with hc
    · have hp : 0 ≤ (now - s.last_update) * rate :=
        mul_nonneg (sub_nonneg.mpr hok.1) hok.2
      simpa using add_nonneg h0 hp
    · exact h0
  | reset now => simp [applyOp]
  | sync now cur debut fin rate =>
    simp only [opOk, decide_eq_true_eq] at hok
    simp only [applyOp]
    split_ifs with hc
    · simpa using mul_nonneg (sub_nonneg.mpr hc.1) hok
    · exact h0
  | toggle now => simpa [applyOp] using h0

/-- C6 amended: starting from a non-negative accumulator, any chronologically
valid sequence of accrual ticks, daily resets, sync-to-current-time steps and
run toggles whose per-second rate is non-negative keeps the accumulator ≥ 0
(with a negative rate — reachable from valid sidebar inputs, see the
counterexample — a tick can make it negative). -/
theorem C6_amended_nonneg (s : SessionRunState) (ops : List Op)
    (h0 : 0 ≤ s.total_earned_today) (hv : validRun s ops = true) :
    0 ≤ (runOps s ops).total_earned_today := by
  induction ops generalizing s with
  | nil => simpa [runOps] using h0
  | cons op rest ih =>
    simp only [validRun, Bool.and_eq_true] at hv
    have h1 : runOps s (op :: rest) = runOps (applyOp s op) rest := rfl
    rw [h1]
    exact ih _ (applyOp_total_nonneg h0 hv.1) hv.2

/-- Witness for the amended C6 on a concrete two-step run with rate 0.01. -/
theorem C6_witness :
    (0 ≤ (initState 0).total_earned_today ∧
      validRun (initState 0) [Op.toggle 0, Op.tick 1 (1/100) true] = true) ∧
    0 ≤ (runOps (initState 0) [Op.toggle 0, Op.tick 1 (1/100) true]
      ).total_earned_today :=
  ⟨⟨by norm_num [initState], by norm_num [validRun, opOk, applyOp, initState]⟩,
   C6_amended_nonneg (initState 0) [Op.toggle 0, Op.tick 1 (1/100) true]
     (by norm_num [initState]) (by norm_num [validRun, opOk, applyOp, initState])⟩

/-- C7: for every prior state, the daily-reset action sets the accumulator to
exactly 0, clears start-time and restamps last-update to now, and leaves the
Running flag, the last-logged-salary value and the log-sent flag unchanged. -/
theorem C7_reset_frame (s : SessionRunState) (now : ℚ) :
    applyOp s (Op.reset now) =
      { s with total_earned_today := 0, start_time := none, last_update := now } ∧
    (applyOp s (Op.reset now)).total_earned_today = 0 ∧
    (applyOp s (Op.reset now)).start_time = none ∧
    (applyOp s (Op.reset now)).last_update = now ∧
    (applyOp s (Op.reset now)).running = s.running ∧
    (applyOp s (Op.reset now)).last_logged_salary = s.last_logged_salary ∧
    (applyOp s (Op.reset now)).log_sent = s.log_sent := by
  simp [applyOp]

/-- When the salary input equals the last logged value and the log-sent flag
is set, a render pass changes nothing and makes no append attempt. -/
theorem renderStep_steady {s : SessionRunState} {v : ℚ} (hsent : s.log_sent = true)
    (hlast : s.last_logged_salary = some v) (st : Statut) (b : Bool) :
    renderStep s v st b = (s, []) := by
  simp [renderStep, hlast, hsent]

/-- The steady situation persists over any sequence of render passes with the
same salary value. -/
theorem runRenders_steady {s : SessionRunState} {v : ℚ} (hsent : s.log_sent = true)
    (hlast : s.last_logged_salary = some v) (sts : List (Statut × Bool)) :
    runRenders s (sts.map fun p => (v, p.1, p.2)) = (s, []) := by
  induction sts with
  | nil => simp [runRenders]
  | cons hd tl ih =>
    simp [runRenders, renderStep_steady hsent hlast hd.1 hd.2, ih]

/-- A render pass with a fresh positive salary value and a succeeding append
updates last-logged-salary, sets log-sent, and makes exactly one attempt. -/
theorem renderStep_change {s : SessionRunState} {w : ℚ}
    (hne : some w ≠ s.last_logged_salary) (hw : 0 < w) (st : Statut) :
    renderStep s w st true =
      ({ s with last_logged_salary := some w, log_sent := true }, [(w, st)]) := by
  simp [renderStep, hne, hw]

/-- C8: after a successful append of the positive value v, further render
passes with v unchanged make no append attempt and leave the state fixed;
changing the input to a new positive value w clears the dedup state and the
next evaluation makes exactly one attempt, and once that attempt succeeds the
following passes with w make no further attempts (one attempt in total). -/
theorem C8_dedup (s : SessionRunState) (v : ℚ) (hsent : s.log_sent = true)
    (hlast : s.last_logged_salary = some v) (hv : 0 < v) :
    (∀ sts : List (Statut × Bool),
      (runRenders s (sts.map fun p => (v, p.1, p.2))).2 = []) ∧
    (∀ w st, 0 < w → w ≠ v →
      (renderStep s w st true).1.log_sent = true ∧
      (renderStep s w st true).1.last_logged_salary = some w ∧
      (renderStep s w st true).2 = [(w, st)] ∧
      ∀ sts : List (Statut × Bool),
        (runRenders s ((w, st, true) :: sts.map fun p => (w, p.1, p.2))).2 =
          [(w, st)]) := by
  constructor
  · intro sts
    rw [runRenders_steady hsent hlast sts]
  · intro w st hw hne
    have hne' : some w ≠ s.last_logged_salary := by
      rw [hlast]
      simp [hne]
    have hstep := renderStep_change hne' hw st
    refine ⟨by rw [hstep], by rw [hstep], by rw [hstep], ?_⟩
    intro sts
    have h1 : runRenders s ((w, st, true) :: sts.map fun p => (w, p.1, p.2)) =
        ((runRenders (renderStep s w st true).1
            (sts.map fun p => (w, p.1, p.2))).1,
          (renderStep s w st true).2 ++
            (runRenders (renderStep s w st true).1
              (sts.map fun p => (w, p.1, p.2))).2) := rfl
    rw [h1, hstep]
    rw [runRenders_steady (s := { s with last_logged_salary := some w, log_sent := true })
      rfl rfl sts]
    simp

/-- Witness for C8 at the concrete post-append state (salary 99999). -/
theorem C8_witness :
    (loggedState.log_sent = true ∧ loggedState.last_logged_salary = some 99999 ∧
      (0 : ℚ) < 99999) ∧
    (runRenders loggedState
      ([(Statut.Cadre, true)].map fun p => ((99999 : ℚ), p.1, p.2))).2 = [] :=
  ⟨⟨rfl, rfl, by norm_num⟩,
   (C8_dedup loggedState 99999 rfl rfl (by norm_num)).1 [(Statut.Cadre, true)]⟩

/-- C9: the logging boundary converts every failure into a failure result —
the result is `true` exactly when the connection, the spreadsheet open, the
worksheet lookup (or its `WorksheetNotFound` recovery: worksheet creation and
header append) and the row append all succeed; and a connection failure makes
the cached connection `None` and the logging call return `False`.  Both
`get_google_sheets_connection` and `log_to_google_sheet` are total functions
into `Option`/`Bool`, so no exception of the modeled path escapes into the
calculation or rendering code. -/
theorem C9_error_boundary (env : LogEnv) :
    (log_to_google_sheet env = true ↔
      env.connection = Except.ok () ∧ env.openByKey = Except.ok () ∧
      (env.lookup = LookupResult.found ∨
        (env.lookup = LookupResult.notFound ∧ env.addWorksheet = Except.ok () ∧
          env.appendHeader = Except.ok ())) ∧
      env.appendRow = Except.ok ()) ∧
    (∀ e, env.connection = Except.error e →
      get_google_sheets_connection env = none ∧
        log_to_google_sheet env = false) := by
  obtain ⟨c, o, l, aw, ah, ar⟩ := env
  cases c <;> cases o <;> cases l <;> cases aw <;> cases ah <;> cases ar <;>
    simp [log_to_google_sheet, logBody, get_google_sheets_connection]

/-- Witness for C9 at an environment whose connection step fails. -/
theorem C9_witness :
    envConnFail.connection = Except.error "auth" ∧
    (get_google_sheets_connection envConnFail = none ∧
      log_to_google_sheet envConnFail = false) :=
  ⟨rfl, (C9_error_boundary envConnFail).2 "auth" rfl⟩

/-- C10: the de-duplication is keyed on the salary value only — in the
post-successful-append state, a render pass with the same positive salary and
ANY employment status (changed or not) makes no append attempt and leaves the
state unchanged, even though the status is part of the row content of every
attempt that is made. -/
theorem C10_statut_only (s : SessionRunState) (v : ℚ) (hsent : s.log_sent = true)
    (hlast : s.last_logged_salary = some v) (hv : 0 < v) :
    (∀ st b, renderStep s v st b = (s, [])) ∧
    (∀ w st, some w ≠ s.last_logged_salary → 0 < w →
      (renderStep s w st true).2 = [(w, st)]) := by
  refine ⟨fun st b => renderStep_steady hsent hlast st b, fun w st hne hw => ?_⟩
  rw [renderStep_change hne hw st]

/-- Witness for C10: a status-only change at the logged state appends nothing. -/
theorem C10_witness :
    renderStep loggedState 99999 Statut.FonctionPublique true = (loggedState, []) :=
  (C10_statut_only loggedState 99999 rfl rfl (by norm_num)).1
    Statut.FonctionPublique true

end SalaireApp
